import Mathlib

/-!
Shallow embedding of the playwright_sample_framework page-object test
framework (src/pages/base_page.py, src/pages/login_page.py,
src/pages/products_page.py, src/steps/login_steps.py,
src/steps/search_steps.py, src/tests/test_login.py).

The browser-automation library (Playwright) is external to the repository;
it is modelled as an opaque `Driver` record of primitive operations over an
abstract browser state `σ` with element handles `ε`.  Each primitive is a
state transformer that may fail, mirroring Python exceptions with
`Except Err`.  Every method of the repository's classes is translated into
a function over an arbitrary `Driver`, so theorems quantified over all
drivers capture exactly what the repository's own code does, independently
of the browser's behaviour.  Logging calls are side effects on an external
sink and are not part of the functional state; they are omitted.
-/

/-- Exceptions that can cross the browser-driver boundary or arise in the
Python code itself (`AttributeError`, `AssertionError`). -/
inductive Err where
  | elementNotFound
  | notInteractable
  | timeout
  | attributeError
  | assertionFailed
  | other (msg : String)
deriving DecidableEq, Repr

/-- A computation over browser state `σ`: Python methods either return a
value and the updated state, or raise an exception. -/
def PageM (σ : Type) (α : Type) : Type := σ → Except Err (α × σ)

/-- Sequencing of two computations; an exception short-circuits, exactly as
an uncaught Python exception aborts the rest of the method. -/
def PageM.bind {σ α β : Type} (m : PageM σ α) (f : α → PageM σ β) : PageM σ β :=
  fun s =>
    match m s with
    | .ok (a, s1) => f a s1
    | .error e => .error e

/-- A pure value, raising nothing. -/
def PageM.pure {σ α : Type} (a : α) : PageM σ α := fun s => .ok (a, s)

/-- Python `try: m except Exception: h` — any exception from `m` runs the
handler instead. -/
def PageM.tryCatch {σ α : Type} (m : PageM σ α) (h : PageM σ α) : PageM σ α :=
  fun s =>
    match m s with
    | .error _ => h s
    | r => r

/-- Python list comprehension `[f e for e in es]`: left-to-right effectful
map over a list. -/
def PageM.mapList {σ ε α : Type} (f : ε → PageM σ α) : List ε → PageM σ (List α)
  | [] => PageM.pure []
  | e :: es =>
      PageM.bind (f e) (fun a =>
        PageM.bind (PageM.mapList f es) (fun as =>
          PageM.pure (a :: as)))

/-- The external browser-automation primitives (the Playwright boundary of
`BasePage`): locator-addressed element actions, queries and waits.  `σ` is
the abstract browser state, `ε` the type of resolved element handles
returned by `page.locator(sel).all()`. -/
structure Driver (σ ε : Type) where
  goto : String → PageM σ Unit
  click : String → Int → PageM σ Unit
  dblclick : String → Int → PageM σ Unit
  fill : String → String → Int → PageM σ Unit
  typeText : String → String → Int → Int → PageM σ Unit
  clear : String → Int → PageM σ Unit
  selectOption : String → String → Int → PageM σ Unit
  check : String → Int → PageM σ Unit
  uncheck : String → Int → PageM σ Unit
  hover : String → Int → PageM σ Unit
  press : String → PageM σ Unit
  textContent : String → Int → PageM σ (Option String)
  getAttribute : String → String → Int → PageM σ (Option String)
  isVisible : String → Int → PageM σ Bool
  isEnabled : String → Int → PageM σ Bool
  waitForSelector : String → String → Int → PageM σ Unit
  waitForURL : String → Int → PageM σ Unit
  waitForLoadState : String → Int → PageM σ Unit
  url : σ → String
  allElements : String → PageM σ (List ε)
  elemTextContent : ε → PageM σ String

/-- Python truthiness fallback `timeout or self.timeout` on an
`Optional[int]`: `None` and `0` are falsy and select the default; any other
value (including negatives) is used as given. -/
def pyOrTimeout (t : Option Int) (dflt : Int) : Int :=
  match t with
  | none => dflt
  | some v => if v = 0 then dflt else v

/-- Python falsy-string fallback `text or ""` on an `Optional[str]`:
`None` and `""` both yield the default. -/
def pyStrOr (o : Option String) (dflt : String) : String :=
  match o with
  | none => dflt
  | some s => if s = "" then dflt else s

namespace BasePage

/-- `self.timeout` set in `BasePage.__init__` (base_page.py line 18). -/
def defaultTimeout : Int := 30000

/-- base_page.py `click`: `timeout = timeout or self.timeout` then
`element.click(timeout=timeout)`. -/
def click {σ ε : Type} (d : Driver σ ε) (locator : String)
    (timeout : Option Int) : PageM σ Unit :=
  d.click locator (pyOrTimeout timeout defaultTimeout)

/-- base_page.py `double_click`. -/
def double_click {σ ε : Type} (d : Driver σ ε) (locator : String)
    (timeout : Option Int) : PageM σ Unit :=
  d.dblclick locator (pyOrTimeout timeout defaultTimeout)

/-- base_page.py `fill`. -/
def fill {σ ε : Type} (d : Driver σ ε) (locator : String) (text : String)
    (timeout : Option Int) : PageM σ Unit :=
  d.fill locator text (pyOrTimeout timeout defaultTimeout)

/-- base_page.py `type_text` (keystroke delay is passed through). -/
def type_text {σ ε : Type} (d : Driver σ ε) (locator : String) (text : String)
    (delay : Int) (timeout : Option Int) : PageM σ Unit :=
  d.typeText locator text delay (pyOrTimeout timeout defaultTimeout)

/-- base_page.py `clear`. -/
def clear {σ ε : Type} (d : Driver σ ε) (locator : String)
    (timeout : Option Int) : PageM σ Unit :=
  d.clear locator (pyOrTimeout timeout defaultTimeout)

/-- base_page.py `select_option`. -/
def select_option {σ ε : Type} (d : Driver σ ε) (locator : String) (value : String)
    (timeout : Option Int) : PageM σ Unit :=
  d.selectOption locator value (pyOrTimeout timeout defaultTimeout)

/-- base_page.py `check`. -/
def check {σ ε : Type} (d : Driver σ ε) (locator : String)
    (timeout : Option Int) : PageM σ Unit :=
  d.check locator (pyOrTimeout timeout defaultTimeout)

/-- base_page.py `uncheck`. -/
def uncheck {σ ε : Type} (d : Driver σ ε) (locator : String)
    (timeout : Option Int) : PageM σ Unit :=
  d.uncheck locator (pyOrTimeout timeout defaultTimeout)

/-- base_page.py `hover`. -/
def hover {σ ε : Type} (d : Driver σ ε) (locator : String)
    (timeout : Option Int) : PageM σ Unit :=
  d.hover locator (pyOrTimeout timeout defaultTimeout)

/-- base_page.py `press_key`: `self.page.keyboard.press(key)`, no timeout. -/
def press_key {σ ε : Type} (d : Driver σ ε) (key : String) : PageM σ Unit :=
  d.press key

/-- base_page.py `get_text`: `text = element.text_content(timeout=timeout)`
then `return text or ""`. -/
def get_text {σ ε : Type} (d : Driver σ ε) (locator : String)
    (timeout : Option Int) : PageM σ String :=
  PageM.bind (d.textContent locator (pyOrTimeout timeout defaultTimeout))
    (fun text => PageM.pure (pyStrOr text ""))

/-- base_page.py `get_attribute` (returned `Optional[str]` is passed through). -/
def get_attribute {σ ε : Type} (d : Driver σ ε) (locator : String) (attr : String)
    (timeout : Option Int) : PageM σ (Option String) :=
  d.getAttribute locator attr (pyOrTimeout timeout defaultTimeout)

/-- base_page.py `is_visible`: the element query is wrapped in
`try: ... except Exception: return False`. -/
def is_visible {σ ε : Type} (d : Driver σ ε) (locator : String)
    (timeout : Option Int) : PageM σ Bool :=
  PageM.tryCatch (d.isVisible locator (pyOrTimeout timeout defaultTimeout))
    (PageM.pure false)

/-- base_page.py `is_enabled`: NO try/except — the query result is returned
directly and any exception propagates. -/
def is_enabled {σ ε : Type} (d : Driver σ ε) (locator : String)
    (timeout : Option Int) : PageM σ Bool :=
  d.isEnabled locator (pyOrTimeout timeout defaultTimeout)

/-- base_page.py `wait_for_selector`. -/
def wait_for_selector {σ ε : Type} (d : Driver σ ε) (locator : String) (state : String)
    (timeout : Option Int) : PageM σ Unit :=
  d.waitForSelector locator state (pyOrTimeout timeout defaultTimeout)

/-- base_page.py `wait_for_url`. -/
def wait_for_url {σ ε : Type} (d : Driver σ ε) (url : String)
    (timeout : Option Int) : PageM σ Unit :=
  d.waitForURL url (pyOrTimeout timeout defaultTimeout)

/-- base_page.py `wait_for_load_state`. -/
def wait_for_load_state {σ ε : Type} (d : Driver σ ε) (state : String)
    (timeout : Option Int) : PageM σ Unit :=
  d.waitForLoadState state (pyOrTimeout timeout defaultTimeout)

/-- base_page.py `get_current_url`: reads the `page.url` property (a pure
attribute access, never raising). -/
def get_current_url {σ ε : Type} (d : Driver σ ε) : PageM σ String :=
  fun s => .ok (d.url s, s)

/-- base_page.py `get_elements`: `self.page.locator(locator).all()`. -/
def get_elements {σ ε : Type} (d : Driver σ ε) (locator : String) : PageM σ (List ε) :=
  d.allElements locator

end BasePage

/-- Executable substring test on character lists, the semantics of Python
`needle in haystack` for strings: some contiguous slice of the haystack
equals the needle. -/
def listContainsSub (needle : List Char) : List Char → Bool
  | [] => needle.isEmpty
  | c :: rest => needle.isPrefixOf (c :: rest) || listContainsSub needle rest

/-- Python string containment `needle in haystack`. -/
def strContains (needle haystack : String) : Bool :=
  listContainsSub needle.toList haystack.toList

namespace LoginPage

/-- login_page.py locator `self.email_input`. -/
def email_input : String := "role=textbox[name=\x27email@example.com\x27]"

/-- login_page.py locator `self.password_input`. -/
def password_input : String := "role=textbox[name=\x27enter your passsword\x27]"

/-- login_page.py locator `self.login_button`. -/
def login_button : String := "role=button[name=\x27Login\x27]"

/-- login_page.py locator `self.success_message` (declared but never used by
any wait or verification). -/
def success_message : String := "role=generic[name=\x27Login Successfully\x27]"

/-- login_page.py `enter_email`. -/
def enter_email {σ ε : Type} (d : Driver σ ε) (email : String) : PageM σ Unit :=
  BasePage.fill d email_input email none

/-- login_page.py `enter_password`. -/
def enter_password {σ ε : Type} (d : Driver σ ε) (password : String) : PageM σ Unit :=
  BasePage.fill d password_input password none

/-- login_page.py `click_login_button`: click then
`wait_for_load_state("networkidle")`. -/
def click_login_button {σ ε : Type} (d : Driver σ ε) : PageM σ Unit :=
  PageM.bind (BasePage.click d login_button none) (fun _ =>
    BasePage.wait_for_load_state d "networkidle" none)

/-- login_page.py `login`: email, password, then the login button. -/
def login {σ ε : Type} (d : Driver σ ε) (email password : String) : PageM σ Unit :=
  PageM.bind (enter_email d email) (fun _ =>
    PageM.bind (enter_password d password) (fun _ =>
      click_login_button d))

/-- login_page.py `wait_for_login_success`:
`self.page.wait_for_url("**/dashboard/dash", timeout=timeout or self.timeout)`. -/
def wait_for_login_success {σ ε : Type} (d : Driver σ ε)
    (timeout : Option Int) : PageM σ Unit :=
  d.waitForURL "**/dashboard/dash" (pyOrTimeout timeout BasePage.defaultTimeout)

end LoginPage

namespace ProductsPage

/-- products_page.py locator `self.search_input`. -/
def search_input : String := "role=textbox[name=\x27search\x27]"

/-- products_page.py locator `self.product_cards`. -/
def product_cards : String := ".card-body"

/-- products_page.py locator `self.product_names`. -/
def product_names : String := "h5.card-title"

/-- products_page.py locator `self.results_count` (the "Showing N results"
label). -/
def results_count : String := "div:has-text(\x27Showing\x27) >> nth=0"

/-- products_page.py `click_search_box`. -/
def click_search_box {σ ε : Type} (d : Driver σ ε) : PageM σ Unit :=
  BasePage.click d search_input none

/-- products_page.py `enter_search_text`. -/
def enter_search_text {σ ε : Type} (d : Driver σ ε) (search_text : String) : PageM σ Unit :=
  BasePage.fill d search_input search_text none

/-- products_page.py `press_enter_in_search`: press Enter then
`wait_for_load_state("networkidle")`. -/
def press_enter_in_search {σ ε : Type} (d : Driver σ ε) : PageM σ Unit :=
  PageM.bind (BasePage.press_key d "Enter") (fun _ =>
    BasePage.wait_for_load_state d "networkidle" none)

/-- products_page.py `search_product`: click box, enter text, press Enter. -/
def search_product {σ ε : Type} (d : Driver σ ε) (product_name : String) : PageM σ Unit :=
  PageM.bind (click_search_box d) (fun _ =>
    PageM.bind (enter_search_text d product_name) (fun _ =>
      press_enter_in_search d))

/-- products_page.py `get_all_product_names`:
`[element.text_content() for element in self.get_elements(self.product_names)]`
(annotated `List[str]` in source; element texts are modelled as strings
accordingly). -/
def get_all_product_names {σ ε : Type} (d : Driver σ ε) : PageM σ (List String) :=
  PageM.bind (BasePage.get_elements d product_names) (fun product_elements =>
    PageM.mapList (fun element => d.elemTextContent element) product_elements)

/-- products_page.py `get_product_count`:
`len(self.get_elements(self.product_cards))`. -/
def get_product_count {σ ε : Type} (d : Driver σ ε) : PageM σ Int :=
  PageM.bind (BasePage.get_elements d product_cards) (fun product_elements =>
    PageM.pure (Int.ofNat product_elements.length))

/-- products_page.py `verify_all_products_contain`, lines 112-131: the pure
verification over the retrieved list of names — empty list returns False;
otherwise collect the names whose lowercase form does not contain the
lowercase keyword and return False when any exist, True otherwise. -/
def verify_all_products_contain (prod_names : List String) (keyword : String) : Bool :=
  if prod_names.isEmpty then
    false
  else
    let keyword_lower := keyword.toLower
    let products_without_keyword :=
      prod_names.filter
        (fun product_name => !(strContains keyword_lower product_name.toLower))
    if !products_without_keyword.isEmpty then
      false
    else
      true

/-- products_page.py `verify_all_products_contain` as the full method: fetch
the names from the page (line 110), then run the pure check of lines
112-131. -/
def verify_all_products_contain_action {σ ε : Type} (d : Driver σ ε)
    (keyword : String) : PageM σ Bool :=
  PageM.bind (get_all_product_names d) (fun prod_names =>
    PageM.pure (verify_all_products_contain prod_names keyword))

/-- products_page.py `get_results_count_text`: `self.get_text(self.results_count)`. -/
def get_results_count_text {σ ε : Type} (d : Driver σ ε) : PageM σ String :=
  BasePage.get_text d results_count none

end ProductsPage

namespace LoginSteps

/-- login_steps.py `navigate_to_login_page`: `self.login_page.navigate(url)`. -/
def navigate_to_login_page {σ ε : Type} (d : Driver σ ε) (url : String) : PageM σ Unit :=
  d.goto url

/-- login_steps.py `perform_login`: `self.login_page.login(email, password)`
then `self.login_page.wait_for_login_success()` — plain sequencing, no
exception handler anywhere in the method. -/
def perform_login {σ ε : Type} (d : Driver σ ε) (email password : String) : PageM σ Unit :=
  PageM.bind (LoginPage.login d email password) (fun _ =>
    LoginPage.wait_for_login_success d none)

/-- login_steps.py `verify_login_success`:
`is_successful = "/dashboard/dash" in self.page.url` (reading the URL
property raises nothing). -/
def verify_login_success {σ ε : Type} (d : Driver σ ε) : PageM σ Bool :=
  fun s => .ok (strContains "/dashboard/dash" (d.url s), s)

/-- login_steps.py `login_with_credentials`: `perform_login` then
`verify_login_success`. -/
def login_with_credentials {σ ε : Type} (d : Driver σ ε) (email password : String) :
    PageM σ Unit :=
  PageM.bind (perform_login d email password) (fun _ =>
    PageM.bind (verify_login_success d) (fun _ =>
      PageM.pure ()))

/-- The attribute names a `LoginSteps` instance actually has: the
instance attributes set in `__init__` (lines 15-17) and the methods of the
class body.  The class defines neither `get_displayed_results_count` nor
`products_page`. -/
def attrs : List String :=
  ["page", "login_page", "logger",
   "navigate_to_login_page", "perform_login",
   "verify_login_success", "login_with_credentials"]

end LoginSteps

namespace SearchSteps

/-- search_steps.py `search_for_product`:
`self.products_page.search_product(product_name)` — no handler. -/
def search_for_product {σ ε : Type} (d : Driver σ ε) (product_name : String) :
    PageM σ Unit :=
  ProductsPage.search_product d product_name

/-- search_steps.py `get_all_product_names`: delegates to the page object —
no handler. -/
def get_all_product_names {σ ε : Type} (d : Driver σ ε) : PageM σ (List String) :=
  ProductsPage.get_all_product_names d

/-- search_steps.py `verify_all_products_contain_keyword`: delegates to
`products_page.verify_all_products_contain` and logs the outcome — no
handler. -/
def verify_all_products_contain_keyword {σ ε : Type} (d : Driver σ ε)
    (keyword : String) : PageM σ Bool :=
  PageM.bind (ProductsPage.verify_all_products_contain_action d keyword)
    (fun result => PageM.pure result)

/-- search_steps.py `get_product_count`: delegates to the page object. -/
def get_product_count {σ ε : Type} (d : Driver σ ε) : PageM σ Int :=
  ProductsPage.get_product_count d

end SearchSteps

/-- Python dynamic attribute lookup on a `LoginSteps` instance: when `name`
is among the instance's attributes run the bound result, otherwise raise
`AttributeError` — exactly what CPython does for a missing attribute. -/
def pyLoginStepsAttr {σ α : Type} (name : String) (onFound : PageM σ α) : PageM σ α :=
  if name ∈ LoginSteps.attrs then onFound else fun _ => .error Err.attributeError

namespace TestLogin

/-- test_login.py lines 56-70, `test_login_displays_correct_product_count`:
perform login, then `login_steps.get_displayed_results_count()`, then
`login_steps.products_page.get_product_count()`, then
`assert displayed_count == actual_product_cards`.  The two lookups are
dynamic attribute accesses on the `LoginSteps` instance; the behaviours the
attributes would have if they existed are taken as parameters `g` and `p`,
since the class defines no such attributes. -/
def test_login_displays_correct_product_count {σ ε : Type} (d : Driver σ ε)
    (email password : String) (g p : PageM σ Int) : PageM σ Unit :=
  PageM.bind (LoginSteps.perform_login d email password) (fun _ =>
    PageM.bind (pyLoginStepsAttr "get_displayed_results_count" g) (fun displayed_count =>
      PageM.bind (pyLoginStepsAttr "products_page" p) (fun actual_product_cards =>
        if displayed_count = actual_product_cards then
          PageM.pure ()
        else
          fun _ => .error Err.assertionFailed)))

end TestLogin

/-- A benign concrete driver over state `Int` and handles `Nat`: every
primitive succeeds and leaves the state unchanged; two product cards are
rendered, each named "iphone". -/
def okDriver : Driver Int Nat where
  goto := fun _ s => .ok ((), s)
  click := fun _ _ s => .ok ((), s)
  dblclick := fun _ _ s => .ok ((), s)
  fill := fun _ _ _ s => .ok ((), s)
  typeText := fun _ _ _ _ s => .ok ((), s)
  clear := fun _ _ s => .ok ((), s)
  selectOption := fun _ _ _ s => .ok ((), s)
  check := fun _ _ s => .ok ((), s)
  uncheck := fun _ _ s => .ok ((), s)
  hover := fun _ _ s => .ok ((), s)
  press := fun _ s => .ok ((), s)
  textContent := fun _ _ s => .ok (some "Showing 2 results", s)
  getAttribute := fun _ _ _ s => .ok (none, s)
  isVisible := fun _ _ s => .ok (true, s)
  isEnabled := fun _ _ s => .ok (true, s)
  waitForSelector := fun _ _ _ s => .ok ((), s)
  waitForURL := fun _ _ s => .ok ((), s)
  waitForLoadState := fun _ _ s => .ok ((), s)
  url := fun _ => "https://rahulshettyacademy.com/client/dashboard/dash"
  allElements := fun _ s => .ok ([0, 1], s)
  elemTextContent := fun _ s => .ok ("iphone", s)

/-- A driver that records in the state the timeout value it received for a
click, exposing which timeout the page layer passed down. -/
def recTimeoutDriver : Driver Int Nat :=
  { okDriver with click := fun _ t _ => .ok ((), t) }

/-- A driver whose visibility and enabled queries both raise. -/
def errQueryDriver : Driver Int Nat :=
  { okDriver with
      isVisible := fun _ _ _ => .error Err.timeout
      isEnabled := fun _ _ _ => .error Err.timeout }

/-- A driver whose fill primitive raises `ElementNotFound`. -/
def failFillDriver : Driver Int Nat :=
  { okDriver with fill := fun _ _ _ _ => .error Err.elementNotFound }

/-- A driver whose text-content query returns `None`. -/
def noneTextDriver : Driver Int Nat :=
  { okDriver with textContent := fun _ _ s => .ok (none, s) }

/-- The executable containment test agrees with the propositional
`List.IsInfix`. -/
theorem listContainsSub_iff (n : List Char) :
    ∀ h : List Char, listContainsSub n h = true ↔ List.IsInfix n h := by
  intro h
  induction h with
  | nil =>
    simp [listContainsSub, List.isEmpty_iff, List.infix_nil]
  | cons c t ih =>
    simp [listContainsSub, Bool.or_eq_true, ih, List.infix_cons_iff,
      List.isPrefixOf_iff_prefix]

/-- Python `needle in haystack` agrees with character-list infixhood. -/
theorem strContains_iff (needle haystack : String) :
    strContains needle haystack = true ↔
      List.IsInfix needle.toList haystack.toList :=
  listContainsSub_iff needle.toList haystack.toList

/-- C1: for every keyword `k` and result set `R` of product names,
`verify_all_products_contain` returns true iff `R` is non-empty and every
name in `R` contains `k` as a case-insensitive substring; an empty `R`
yields false regardless of `k`. -/
theorem C1_verify_all_products_contain_spec :
    ∀ (keyword : String) (R : List String),
      ProductsPage.verify_all_products_contain R keyword = true ↔
        (R ≠ [] ∧ ∀ name ∈ R,
          List.IsInfix keyword.toLower.toList name.toLower.toList) := by
  intro k R
  unfold ProductsPage.verify_all_products_contain
  cases R with
  | nil => simp
  | cons a l =>
    simp [List.filter_eq_nil_iff, strContains_iff]

/-- C2 (code bug): the dedicated count cross-check scenario never completes
its two count retrievals through the `LoginSteps` interface — `LoginSteps`
defines neither `get_displayed_results_count` nor `products_page`, so after
a successful login the scenario raises `AttributeError` before the equality
assertion can run, whatever behaviour the missing attributes would have
had. -/
theorem C2_count_crosscheck_scenario_raises :
    (∀ (σ ε : Type) (d : Driver σ ε) (email password : String)
        (g p : PageM σ Int) (s s1 : σ),
      LoginSteps.perform_login d email password s = .ok ((), s1) →
      TestLogin.test_login_displays_correct_product_count d email password g p s =
        .error Err.attributeError) ∧
    ¬ ("get_displayed_results_count" ∈ LoginSteps.attrs) ∧
    ¬ ("products_page" ∈ LoginSteps.attrs) := by
  refine ⟨?_, by decide, by decide⟩
  intro σ ε d email password g p s s1 hlogin
  unfold TestLogin.test_login_displays_correct_product_count
  unfold PageM.bind
  rw [hlogin]
  unfold pyLoginStepsAttr
  rw [if_neg (by decide)]

/-- Witness for C2: with a concrete driver on which login succeeds, the
scenario evaluates to `AttributeError`. -/
theorem C2_count_crosscheck_witness :
    TestLogin.test_login_displays_correct_product_count okDriver "e" "p"
      (PageM.pure 3) (PageM.pure 3) 0 = .error Err.attributeError :=
  C2_count_crosscheck_scenario_raises.1 Int Nat okDriver "e" "p"
    (PageM.pure 3) (PageM.pure 3) 0 0 rfl

/-- C3 counterexample: `is_enabled` CAN raise — with a driver whose enabled
query fails with a timeout, `is_enabled` propagates the exception instead of
returning false, refuting the claim that both queries never raise. -/
theorem C3_is_enabled_raises_counterexample :
    BasePage.is_enabled errQueryDriver "sel" none 0 = .error Err.timeout := rfl

/-- C3 (amended): `is_visible` converts any underlying failure into a
returned false, but `is_enabled` performs no such conversion — it is the
bare primitive query, so its failures propagate to the caller. -/
theorem C3_query_failure_policy :
    ∀ (σ ε : Type) (d : Driver σ ε) (locator : String) (t : Option Int)
      (s : σ) (e : Err),
      (d.isVisible locator (pyOrTimeout t BasePage.defaultTimeout) s = .error e →
        BasePage.is_visible d locator t s = .ok (false, s)) ∧
      BasePage.is_enabled d locator t s =
        d.isEnabled locator (pyOrTimeout t BasePage.defaultTimeout) s := by
  intro σ ε d locator t s e
  refine ⟨?_, rfl⟩
  intro h
  unfold BasePage.is_visible PageM.tryCatch
  rw [h]
  rfl

/-- Witness for C3: on the failing driver, `is_visible` indeed returns
false. -/
theorem C3_query_failure_witness :
    BasePage.is_visible errQueryDriver "sel" none 0 = .ok (false, 0) :=
  (C3_query_failure_policy Int Nat errQueryDriver "sel" none 0 Err.timeout).1 rfl

/-- C4: login success is decided solely by the URL: `verify_login_success`
is true exactly when the current URL contains the substring
"/dashboard/dash", and `wait_for_login_success` is precisely the driver
wait on the URL pattern "**/dashboard/dash" — for every driver, so no
on-page message is ever consulted. -/
theorem C4_login_success_url_only :
    ∀ (σ ε : Type) (d : Driver σ ε) (s : σ) (t : Option Int),
      (LoginSteps.verify_login_success d s = .ok (true, s) ↔
        List.IsInfix "/dashboard/dash".toList (d.url s).toList) ∧
      LoginPage.wait_for_login_success d t s =
        d.waitForURL "**/dashboard/dash" (pyOrTimeout t BasePage.defaultTimeout) s := by
  intro σ ε d s t
  refine ⟨?_, rfl⟩
  have h1 : LoginSteps.verify_login_success d s =
      Except.ok (strContains "/dashboard/dash" (d.url s), s) := rfl
  rw [h1]
  simp only [Except.ok.injEq, Prod.mk.injEq, and_true]
  exact strContains_iff "/dashboard/dash" (d.url s)

/-- C5 counterexample: the caller supplies an explicit override of 0, but
the driver receives 30000 — the supplied override is NOT used. -/
theorem C5_zero_override_not_used :
    BasePage.click recTimeoutDriver "sel" (some 0) 0 = .ok ((), 30000) ∧
      (30000 : Int) ≠ 0 := by
  exact ⟨rfl, by decide⟩

/-- C5 (amended): every timed base-page action runs with the timeout
`pyOrTimeout override 30000`: the default 30000 when no override is given,
the override itself when it is nonzero (an override of 0 falls back to the
default, see the truthiness combination). -/
theorem C5_timeout_policy :
    ∀ (σ ε : Type) (d : Driver σ ε) (loc text value attr st : String)
      (delay : Int) (s : σ) (t : Option Int) (v : Int), v ≠ 0 →
      pyOrTimeout none 30000 = 30000 ∧
      pyOrTimeout (some v) 30000 = v ∧
      BasePage.click d loc t s = d.click loc (pyOrTimeout t 30000) s ∧
      BasePage.double_click d loc t s = d.dblclick loc (pyOrTimeout t 30000) s ∧
      BasePage.fill d loc text t s = d.fill loc text (pyOrTimeout t 30000) s ∧
      BasePage.type_text d loc text delay t s =
        d.typeText loc text delay (pyOrTimeout t 30000) s ∧
      BasePage.clear d loc t s = d.clear loc (pyOrTimeout t 30000) s ∧
      BasePage.select_option d loc value t s =
        d.selectOption loc value (pyOrTimeout t 30000) s ∧
      BasePage.check d loc t s = d.check loc (pyOrTimeout t 30000) s ∧
      BasePage.uncheck d loc t s = d.uncheck loc (pyOrTimeout t 30000) s ∧
      BasePage.hover d loc t s = d.hover loc (pyOrTimeout t 30000) s ∧
      BasePage.get_text d loc t s =
        PageM.bind (d.textContent loc (pyOrTimeout t 30000))
          (fun x => PageM.pure (pyStrOr x "")) s ∧
      BasePage.get_attribute d loc attr t s =
        d.getAttribute loc attr (pyOrTimeout t 30000) s ∧
      BasePage.is_visible d loc t s =
        PageM.tryCatch (d.isVisible loc (pyOrTimeout t 30000)) (PageM.pure false) s ∧
      BasePage.is_enabled d loc t s = d.isEnabled loc (pyOrTimeout t 30000) s ∧
      BasePage.wait_for_selector d loc st t s =
        d.waitForSelector loc st (pyOrTimeout t 30000) s ∧
      BasePage.wait_for_url d loc t s = d.waitForURL loc (pyOrTimeout t 30000) s ∧
      BasePage.wait_for_load_state d st t s =
        d.waitForLoadState st (pyOrTimeout t 30000) s := by
  intro σ ε d loc text value attr st delay s t v hv
  refine ⟨rfl, ?_, rfl, rfl, rfl, rfl, rfl, rfl, rfl, rfl, rfl, rfl, rfl, rfl,
    rfl, rfl, rfl, rfl⟩
  simp [pyOrTimeout, hv]

/-- Witness for C5 (amended): a nonzero override of 5 reaches the driver. -/
theorem C5_timeout_policy_witness :
    pyOrTimeout (some 5) 30000 = 5 ∧
      BasePage.click recTimeoutDriver "sel" (some 5) 0 =
        recTimeoutDriver.click "sel" (pyOrTimeout (some 5) 30000) 0 := by
  have h := C5_timeout_policy Int Nat recTimeoutDriver "sel" "t" "v" "a" "st"
    100 0 (some 5) 5 (by decide)
  exact ⟨h.2.1, h.2.2.1⟩

/-- C6: `get_product_count` is the length of the element list the driver
resolves for the product-card locator ".card-body", and its value is
unchanged under arbitrary replacement of every text-reading primitive — so
it is never derived from the "Showing N results" label text. -/
theorem C6_count_from_rendered_cards :
    ∀ (σ ε : Type) (d : Driver σ ε) (s : σ) (f : ε → PageM σ String)
      (g : String → Int → PageM σ (Option String)),
      ProductsPage.get_product_count d s =
        Except.map (fun r => (Int.ofNat r.1.length, r.2))
          (d.allElements ProductsPage.product_cards s) ∧
      ProductsPage.product_cards = ".card-body" ∧
      ProductsPage.get_product_count
          { d with elemTextContent := f, textContent := g } s =
        ProductsPage.get_product_count d s := by
  intro σ ε d s f g
  refine ⟨?_, rfl, rfl⟩
  unfold ProductsPage.get_product_count PageM.bind BasePage.get_elements
  cases hres : d.allElements ProductsPage.product_cards s with
  | error e => rfl
  | ok v => rfl

/-- C7: step-layer methods add no exception handling — a failure of the
underlying page-object workflow surfaces from the step method unchanged, at
each stage of `perform_login` and for the search steps. -/
theorem C7_steps_propagate_failures :
    ∀ (σ ε : Type) (d : Driver σ ε) (email password product keyword : String)
      (s : σ) (e : Err),
      (LoginPage.login d email password s = .error e →
        LoginSteps.perform_login d email password s = .error e) ∧
      (∀ s1, LoginPage.login d email password s = .ok ((), s1) →
        LoginPage.wait_for_login_success d none s1 = .error e →
        LoginSteps.perform_login d email password s = .error e) ∧
      (ProductsPage.search_product d product s = .error e →
        SearchSteps.search_for_product d product s = .error e) ∧
      (ProductsPage.get_all_product_names d s = .error e →
        SearchSteps.get_all_product_names d s = .error e) ∧
      (ProductsPage.verify_all_products_contain_action d keyword s = .error e →
        SearchSteps.verify_all_products_contain_keyword d keyword s = .error e) := by
  intro σ ε d email password product keyword s e
  refine ⟨?_, ?_, ?_, ?_, ?_⟩
  · intro h
    unfold LoginSteps.perform_login PageM.bind
    rw [h]
  · intro s1 h1 h2
    unfold LoginSteps.perform_login PageM.bind
    rw [h1]
    exact h2
  · intro h
    exact h
  · intro h
    exact h
  · intro h
    unfold SearchSteps.verify_all_products_contain_keyword PageM.bind
    rw [h]

/-- Witness for C7: a driver whose fill primitive fails makes the login
workflow fail, and `perform_login` surfaces exactly that exception. -/
theorem C7_steps_propagate_witness :
    LoginSteps.perform_login failFillDriver "e" "p" 0 =
      .error Err.elementNotFound :=
  (C7_steps_propagate_failures Int Nat failFillDriver "e" "p" "ip" "k" 0
    Err.elementNotFound).1 rfl

/-- A left-to-right effectful map over state-preserving element reads
preserves the state. -/
theorem PageM.mapList_preserves {σ ε α : Type} (f : ε → PageM σ α)
    (hf : ∀ el s r s', f el s = .ok (r, s') → s' = s) :
    ∀ (es : List ε) (s : σ) (r : List α) (s' : σ),
      PageM.mapList f es s = .ok (r, s') → s' = s := by
  intro es
  induction es with
  | nil =>
    intro s r s' h
    unfold PageM.mapList PageM.pure at h
    cases h
    rfl
  | cons e es ih =>
    intro s r s' h
    unfold PageM.mapList PageM.bind at h
    cases h1 : f e s with
    | error err =>
      rw [h1] at h
      cases h
    | ok v =>
      obtain ⟨a, sa⟩ := v
      rw [h1] at h
      dsimp only at h
      cases h2 : PageM.mapList f es sa with
      | error err =>
        rw [h2] at h
        cases h
      | ok w =>
        obtain ⟨as, sb⟩ := w
        rw [h2] at h
        unfold PageM.pure at h
        cases h
        exact ((ih sa as _ h2).trans (hf e s a sa h1))

/-- Retrieving the product names preserves the browser state whenever the
driver's element reads do. -/
theorem get_all_product_names_preserves {σ ε : Type} (d : Driver σ ε)
    (hall : ∀ loc s r s', d.allElements loc s = .ok (r, s') → s' = s)
    (htext : ∀ el s r s', d.elemTextContent el s = .ok (r, s') → s' = s) :
    ∀ s names s1,
      ProductsPage.get_all_product_names d s = .ok (names, s1) → s1 = s := by
  intro s names s1 h
  unfold ProductsPage.get_all_product_names PageM.bind BasePage.get_elements at h
  cases h1 : d.allElements ProductsPage.product_names s with
  | error err =>
    rw [h1] at h
    cases h
  | ok v =>
    obtain ⟨es, sa⟩ := v
    rw [h1] at h
    exact (PageM.mapList_preserves _ htext es sa names s1 h).trans
      (hall ProductsPage.product_names s es sa h1)

/-- C8: with a driver whose element reads leave the page state unchanged
(no intervening mutation), a second call to `get_all_product_names` yields
exactly the same name sequence and state as the first. -/
theorem C8_get_all_product_names_idempotent :
    ∀ (σ ε : Type) (d : Driver σ ε),
      (∀ loc s r s', d.allElements loc s = .ok (r, s') → s' = s) →
      (∀ el s r s', d.elemTextContent el s = .ok (r, s') → s' = s) →
      ∀ s names s1,
        ProductsPage.get_all_product_names d s = .ok (names, s1) →
        ProductsPage.get_all_product_names d s1 = .ok (names, s1) := by
  intro σ ε d hall htext s names s1 h
  have hs := get_all_product_names_preserves d hall htext s names s1 h
  subst hs
  exact h

/-- Witness for C8: on the benign concrete driver the two rendered names are
returned, and the call repeated from the resulting state returns the same. -/
theorem C8_idempotent_witness :
    ProductsPage.get_all_product_names okDriver 0 =
      .ok (["iphone", "iphone"], 0) := by
  have hall : ∀ (loc : String) (s : Int) (r : List Nat) (s' : Int),
      okDriver.allElements loc s = .ok (r, s') → s' = s := by
    intro loc s r s' h
    have he : okDriver.allElements loc s = Except.ok (([0, 1] : List Nat), s) := rfl
    rw [he] at h
    cases h
    rfl
  have htext : ∀ (el : Nat) (s : Int) (r : String) (s' : Int),
      okDriver.elemTextContent el s = .ok (r, s') → s' = s := by
    intro el s r s' h
    have he : okDriver.elemTextContent el s = Except.ok ("iphone", s) := rfl
    rw [he] at h
    cases h
    rfl
  exact C8_get_all_product_names_idempotent Int Nat okDriver hall htext 0
    ["iphone", "iphone"] 0 rfl

/-- C9: every timed base-page action treats an explicit override of 0
exactly like no override: the truthiness fallback maps both to the default
30000-millisecond timeout. -/
theorem C9_zero_override_is_default :
    ∀ (σ ε : Type) (d : Driver σ ε) (loc text value attr st : String)
      (delay : Int) (s : σ),
      pyOrTimeout (some 0) 30000 = pyOrTimeout none 30000 ∧
      BasePage.click d loc (some 0) s = BasePage.click d loc none s ∧
      BasePage.double_click d loc (some 0) s = BasePage.double_click d loc none s ∧
      BasePage.fill d loc text (some 0) s = BasePage.fill d loc text none s ∧
      BasePage.type_text d loc text delay (some 0) s =
        BasePage.type_text d loc text delay none s ∧
      BasePage.clear d loc (some 0) s = BasePage.clear d loc none s ∧
      BasePage.select_option d loc value (some 0) s =
        BasePage.select_option d loc value none s ∧
      BasePage.check d loc (some 0) s = BasePage.check d loc none s ∧
      BasePage.uncheck d loc (some 0) s = BasePage.uncheck d loc none s ∧
      BasePage.hover d loc (some 0) s = BasePage.hover d loc none s ∧
      BasePage.get_text d loc (some 0) s = BasePage.get_text d loc none s ∧
      BasePage.get_attribute d loc attr (some 0) s =
        BasePage.get_attribute d loc attr none s ∧
      BasePage.is_visible d loc (some 0) s = BasePage.is_visible d loc none s ∧
      BasePage.is_enabled d loc (some 0) s = BasePage.is_enabled d loc none s ∧
      BasePage.wait_for_selector d loc st (some 0) s =
        BasePage.wait_for_selector d loc st none s ∧
      BasePage.wait_for_url d loc (some 0) s = BasePage.wait_for_url d loc none s ∧
      BasePage.wait_for_load_state d st (some 0) s =
        BasePage.wait_for_load_state d st none s := by
  intro σ ε d loc text value attr st delay s
  exact ⟨rfl, rfl, rfl, rfl, rfl, rfl, rfl, rfl, rfl, rfl, rfl, rfl, rfl, rfl,
    rfl, rfl, rfl⟩

/-- C10: `get_text` never returns `None` — whatever optional text the
underlying query yields, the result is its falsy-coalescing to a string, so
an absent (`None`) text content becomes the empty string. -/
theorem C10_get_text_total_string :
    ∀ (σ ε : Type) (d : Driver σ ε) (locator : String) (t : Option Int)
      (s s1 : σ) (o : Option String),
      d.textContent locator (pyOrTimeout t BasePage.defaultTimeout) s =
          .ok (o, s1) →
      BasePage.get_text d locator t s = .ok (pyStrOr o "", s1) ∧
        pyStrOr none "" = "" := by
  intro σ ε d locator t s s1 o h
  refine ⟨?_, rfl⟩
  unfold BasePage.get_text PageM.bind
  rw [h]
  rfl

/-- Witness for C10: a driver whose text query returns `None` makes
`get_text` return the empty string. -/
theorem C10_get_text_witness :
    BasePage.get_text noneTextDriver "h5.card-title" none 0 = .ok ("", 0) :=
  (C10_get_text_total_string Int Nat noneTextDriver "h5.card-title" none 0 0
    none rfl).1
